import Mathlib

/-!
Shallow embedding of the SNData repository (a uniform accessor layer for
astronomical survey data releases) and proofs about the claims of its
specification.

Conventions of the embedding:
* Python floats on the straight-line arithmetic paths are modelled as `ℚ`.
* Python strings whose ordering matters (object identifiers) are modelled as
  `List Char`, Python's lexicographic string order being the lexicographic
  order on the character lists; strings that are only compared for equality
  (column names, metadata keys, band names) are modelled as `String`.
* The filesystem is modelled explicitly: a set of existing paths, or a
  predicate telling which paths exist, passed as an argument.
* A Python function that can raise is modelled as returning `Except PyError`.
* `sorted(...)` is modelled as `List.insertionSort (· ≤ ·)` and `set(...)`
  (used only as `sorted(set(...))`) as `List.dedup`.
-/

namespace SNData

/-- The exceptions raised by the modelled code paths of the repository. -/
inductive PyError
  | invalidObjId
  | noDownloadedData
  | valueError (msg : String)
  | unboundLocal (name : String)
  | fileNotFoundError
  | runtimeError (msg : String)
  deriving DecidableEq

/-- The schema of an astropy table as it matters here: its column names in
order, and the keys of its metadata dictionary in insertion order. -/
structure Table where
  colNames : List String
  metaKeys : List String
  deriving DecidableEq

/-- A Python string, modelled as its list of characters. -/
abbrev PyStr := List Char

/-- The common SNCosmo input columns named by the spec. -/
def sncosmo_columns : List String := ["time", "band", "flux", "fluxerr", "zp", "zpsys"]

/-- The package-standard metadata keys named by the spec. -/
def standard_meta : List String := ["obj_id", "ra", "dec", "z", "z_err"]

/-! ## `sndata._utils` -/

/-- Model of `convert_to_jd` from `sndata/_utils.py`: convert MJD and Snoopy dates into
JD.  The two offsets are `snoopy_offset = 53000` and `mjd_offset = 2400000.5`;
each is added whenever the (possibly already shifted) date is below it. -/
def convert_to_jd (date : ℚ) : ℚ :=
  let date1 := if date < 53000 then date + 53000 else date
  if date1 < 2400000.5 then date1 + 2400000.5 else date1

/-- Model of `hourangle_to_degrees` from `sndata/_utils.py`.  The right ascension is
converted through `astropy.coordinates.Angle`, whose hourangle-to-degree
conversion is `15 * (h + m / 60 + s / 3600)`.  The declination is computed
exactly as written in the source: `sign * decd + decm / 60 + decs / 60 / 60`,
where `sign` is `-1` when `dec_sign == '-'` and `1` otherwise. -/
def hourangle_to_degrees (rah ram ras : ℚ) (dec_sign : String) (decd decm decs : ℚ) :
    ℚ × ℚ :=
  let ra := 15 * (rah + ram / 60 + ras / 3600)
  let sign : ℚ := if dec_sign = "-" then -1 else 1
  let dec := sign * decd + decm / 60 + decs / 60 / 60
  (ra, dec)

/-- Model of `require_data_path` from `sndata/_utils.py`: walk the given paths in order
and raise `NoDownloadedData` at the first one that does not exist. -/
def require_data_path (pathExists : String → Bool) : List String → Except PyError Unit
  | [] => .ok ()
  | d :: ds =>
    if pathExists d then require_data_path pathExists ds
    else .error .noDownloadedData

/-- A filesystem state: the collection of paths (files and directories) that
exist.  A path is a list of components. -/
structure FileSystem where
  paths : List (List String)
  deriving DecidableEq

/-- Whether a path exists in the filesystem. -/
def FileSystem.hasPath (fs : FileSystem) (p : List String) : Bool :=
  fs.paths.contains p

/-- Create a path (`mkdir` or a file write); existing paths are unchanged. -/
def FileSystem.addPath (fs : FileSystem) (p : List String) : FileSystem :=
  ⟨p :: fs.paths⟩

/-- Model of `check_url` from `sndata/_utils.py`: `requests.get` succeeds exactly when
the URL is reachable; on a `ConnectionError` a warning is issued and `False`
is returned.  The result is the boolean together with the warnings issued. -/
def check_url (reachable : Bool) (url : String) : Bool × List String :=
  if reachable then (true, [])
  else (false, ["Could not connect to " ++ url])

/-- Model of `download_file` from `sndata/_utils.py` in its `path` mode.  The download
is skipped unless `(force or not path.exists()) and check_url(url)`; note the
short circuit: `check_url` is only consulted (and can only warn) when the
first conjunct holds.  On a real download the parent directory is created and
the file is written. -/
def download_file (reachable : Bool) (url : String) (path : List String)
    (force : Bool) (fs : FileSystem) : FileSystem × List String :=
  if force || ! fs.hasPath path then
    let (ok, warns) := check_url reachable url
    if ok then ((fs.addPath path.dropLast).addPath path, warns)
    else (fs, warns)
  else (fs, [])

/-- Model of `download_tar` from `sndata/_utils.py`: skipped unless
`(force or not out_dir.exists()) and check_url(url)`; on a real download the
output directory is created and the archive members are extracted into it. -/
def download_tar (reachable : Bool) (url : String) (out_dir : List String)
    (archiveContents : List (List String)) (force : Bool) (fs : FileSystem) :
    FileSystem × List String :=
  if force || ! fs.hasPath out_dir then
    let (ok, warns) := check_url reachable url
    if ok then (archiveContents.foldl FileSystem.addPath (fs.addPath out_dir), warns)
    else (fs, warns)
  else (fs, [])

/-! ## `sndata.csp._dr1` (spectroscopic release) -/

namespace dr1

/-- The spectra directory checked by `DR1._get_available_ids`. -/
def spectra_dir : String := "spectra/CSP_spectra_DR1"

/-- Id extraction of `DR1._get_available_ids`:
`'20' + Path(f).name.split('_')[0].lstrip('SN')`.  Python's `lstrip('SN')`
removes every leading character belonging to the set of characters S, N. -/
def extract_id (fname : PyStr) : PyStr :=
  ['2', '0'] ++ ((fname.splitOn '_').headD []).dropWhile (fun c => c == 'S' || c == 'N')

/-- The pure part of `DR1._get_available_ids`: `sorted(set(ids))`. -/
def available_ids (files : List PyStr) : List PyStr :=
  List.insertionSort (· ≤ ·) (files.map extract_id).dedup

/-- Model of `DR1._get_available_ids`: require the spectra directory, then the sorted
de-duplicated ids of the `SN*.dat` files found there. -/
def get_available_ids (pathExists : String → Bool) (files : List PyStr) :
    Except PyError (List PyStr) :=
  match require_data_path pathExists [spectra_dir] with
  | .error e => .error e
  | .ok _ => .ok (available_ids files)

/-- The data read by `_read_file` from one spectrum file that matters to the
metadata of the assembled table. -/
structure SpectrumFile where
  max_date : ℚ
  redshift : ℚ
  deriving DecidableEq

/-- Python truthiness of the value `files` in `DR1._get_data_for_id`:
`Path.rglob` returns a generator object, and `bool` of a generator object is
`True` whether or not the generator will yield anything, so `if not files:` is
never taken. -/
def generator_is_truthy (_files : List SpectrumFile) : Bool := true

/-- The column names of the table assembled by `DR1._get_data_for_id`. -/
def raw_columns : List String :=
  ["date", "wavelength", "flux", "epoch", "wavelength_range", "telescope", "instrument"]

/-- Model of `DR1._get_data_for_id`.  `matching` is the list of files yielded by
`self._spectra_dir.rglob(f'SN*.dat')` for the object.  The guard
`if not files: raise ValueError(...)` tests the generator object itself and is
dead code; when no file matches, the for loop never binds `redshift` and the
later use `out_table.meta['z'] = redshift` raises `UnboundLocalError`.
Metadata: `obj_id`, `ra`, `dec`, `z`, `z_err` are set, `comments` deleted;
with `format_table` the `date` column is renamed to `time`. -/
def get_data_for_id (matching : List SpectrumFile) (obj_id : String)
    (format_table : Bool) : Except PyError Table :=
  if generator_is_truthy matching = false then
    .error (.valueError ("No data found for obj_id " ++ obj_id))
  else
    match matching.getLast? with
    | none => .error (.unboundLocal "redshift")
    | some _ =>
      .ok { colNames :=
              if format_table then
                raw_columns.map (fun c => if c = "date" then "time" else c)
              else raw_columns
            metaKeys := ["obj_id", "ra", "dec", "z", "z_err"] }

end dr1

/-! ## `sndata.essence._narayan16` (photometric release) -/

namespace narayan16

/-- The photometry directory checked by `Narayan16._get_available_ids`. -/
def photometry_dir : String := "vizier/lcs"

/-- Id extraction of `Narayan16._get_available_ids`:
`Path(f).name.split('.')[0]`. -/
def extract_id (fname : PyStr) : PyStr :=
  (fname.splitOn '.').headD []

/-- The pure part of `Narayan16._get_available_ids`: `sorted(...)`
(no de-duplication). -/
def available_ids (files : List PyStr) : List PyStr :=
  List.insertionSort (· ≤ ·) (files.map extract_id)

/-- Model of `Narayan16._get_available_ids`. -/
def get_available_ids (pathExists : String → Bool) (files : List PyStr) :
    Except PyError (List PyStr) :=
  match require_data_path pathExists [photometry_dir] with
  | .error e => .error e
  | .ok _ => .ok (available_ids files)

/-- The class attribute `band_names` of `Narayan16`. -/
def band_names : List String := ["essence_narayan16_R", "essence_narayan16_I"]

/-- The class attribute `zero_point = tuple(27.5 for _ in band_names)`. -/
def zero_point : List ℚ := band_names.map (fun _ => 27.5)

/-- One row of the raw table read by `Narayan16._get_data_for_id` (columns
`Observation, MJD, Passband, Flux, Fluxerr_lo, Fluxerr_hi`, plus the added
column `JD = convert_to_jd(MJD)`). -/
structure RawRow where
  MJD : ℚ
  Passband : String
  Flux : ℚ
  Fluxerr_lo : ℚ
  Fluxerr_hi : ℚ
  JD : ℚ
  deriving DecidableEq

/-- One row of the table produced by `_format_table`. -/
structure FmtRow where
  time : ℚ
  band : String
  zp : ℚ
  zpsys : String
  flux : ℚ
  fluxerr : ℚ
  deriving DecidableEq

/-- The per-row action of `_format_table` from `sndata/essence/_narayan16.py`:
`band` is `'csp_dr3_' + band` for the raw passband, `zp` is filled with `25`,
`zpsys` with `'ab'`, and `fluxerr` is the elementwise maximum of `Fluxerr_hi`
and `Fluxerr_lo`. -/
def format_row (r : RawRow) : FmtRow :=
  { time := r.JD
    band := "csp_dr3_" ++ r.Passband
    zp := 25
    zpsys := "ab"
    flux := r.Flux
    fluxerr := max r.Fluxerr_hi r.Fluxerr_lo }

/-- Model of `_format_table`, applied row by row to the raw table. -/
def format_table (rows : List RawRow) : List FmtRow :=
  rows.map format_row

/-- The column names of the table built by `_format_table`, in insertion
order. -/
def formatted_columns : List String :=
  ["time", "band", "zp", "zpsys", "flux", "fluxerr"]

/-- The metadata keys of the table returned by `Narayan16._get_data_for_id`:
the keys of the two-line file header, with `objid` popped and re-inserted as
`obj_id` (and the `comments` key deleted). -/
def meta_keys (headerKeys : List String) : List String :=
  (headerKeys.filter (fun k => k ≠ "objid")) ++ ["obj_id"]

end narayan16

/-! ## `sndata.des._sn3yr` (photometric release) -/

namespace des

/-- Model of `SN3YR._get_available_tables`. -/
def get_available_tables : List String :=
  ["SALT2mu_DES+LOWZ_C11.FITRES", "SALT2mu_DES+LOWZ_G10.FITRES"]

/-- The column names passed to `Table.read` in `SN3YR._load_table`, with
`dummy_col` excluded by `exclude_names`. -/
def fitres_columns : List String :=
  (["dummy_col", "CID", "CIDint", "IDSURVEY", "TYPE", "FIELD",
    "CUTFLAG_SNANA", "zHEL", "zHELERR", "zCMB", "zCMBERR",
    "zHD", "zHDERR", "VPEC", "VPECERR", "HOST_LOGMASS",
    "HOST_LOGMASS_ERR", "SNRMAX1", "SNRMAX2", "SNRMAX3", "PKMJD",
    "PKMJDERR", "x1", "x1ERR", "c", "cERR", "mB", "mBERR", "x0",
    "x0ERR", "COV_x1_c", "COV_x1_x0", "COV_c_x0", "NDOF",
    "FITCHI2", "FITPROB", "RA", "DECL", "TGAPMAX", "TrestMIN",
    "TrestMAX", "MWEBV", "m0obs_i", "m0obs_r", "em0obs_i", "em0obs_r",
    "MU", "MUMODEL", "MUERR", "MUERR_RAW", "MURES", "MUPULL", "M0DIF",
    "ERRCODE", "biasCor_mu", "biasCorErr_mu", "biasCor_mB",
    "biasCor_x1", "biasCor_c", "biasScale_muCOV", "IDSAMPLE"]).filter
    (fun c => c ≠ "dummy_col")

/-- Model of `SN3YR._load_table`: raise `ValueError` for a table id that is not among
`get_available_tables`, otherwise read and return the FITRES table. -/
def load_table (table_id : String) : Except PyError Table :=
  if table_id ∉ get_available_tables then
    .error (.valueError ("Table " ++ table_id ++ " is not available."))
  else
    .ok { colNames := fitres_columns, metaKeys := [] }

/-- Id extraction of `SN3YR._get_available_ids`:
`f.lstrip('des_').rstrip('.dat')` over the entries of the `.LIST` file.
Python's `lstrip` and `rstrip` strip by character set. -/
def extract_id (entry : PyStr) : PyStr :=
  ((entry.dropWhile (fun c => c == 'd' || c == 'e' || c == 's' || c == '_')).reverse.dropWhile
    (fun c => c == '.' || c == 'd' || c == 'a' || c == 't')).reverse

/-- The pure part of `SN3YR._get_available_ids`: `sorted(...)`. -/
def available_ids (file_list : List PyStr) : List PyStr :=
  List.insertionSort (· ≤ ·) (file_list.map extract_id)

/-- The column names of the raw photometry table of `SN3YR._get_data_for_id`
(the `names=` of `Table.read` plus the added `JD` column). -/
def raw_columns : List String :=
  ["VARLIST:", "MJD", "BAND", "FIELD", "FLUXCAL", "FLUXCALERR",
   "ZPFLUX", "PSF", "SKYSIG", "GAIN", "PHOTFLAG", "PHOTPROB", "JD"]

/-- The metadata keys set by `SN3YR._get_data_for_id` (with `comments`
deleted). -/
def meta_keys : List String := ["obj_id", "ra", "dec", "z", "z_err", "dtype"]

/-- Model of `_format_sncosmo_table` from `sndata/des/_sn3yr.py`: a new table with the
columns `time, band, flux, fluxerr, zp, zpsys` and the same metadata. -/
def format_sncosmo_table (t : Table) : Table :=
  { colNames := ["time", "band", "flux", "fluxerr", "zp", "zpsys"]
    metaKeys := t.metaKeys }

/-- Model of `SN3YR._get_data_for_id`: raise `InvalidObjId` for an object id that is
not among the available ids; otherwise the raw table with its metadata,
formatted by `_format_sncosmo_table` when `format_table` is true. -/
def get_data_for_id (availableIds : List String) (obj_id : String)
    (format_table : Bool) : Except PyError Table :=
  if obj_id ∉ availableIds then .error .invalidObjId
  else
    let data : Table := { colNames := raw_columns, metaKeys := meta_keys }
    .ok (if format_table then format_sncosmo_table data else data)

end des

/-! ## `sndata.jla.betoule14._data_parsing` -/

namespace betoule14

/-- The raw column names of `get_data_for_id`
(`names = ['Date', 'Flux', 'Fluxerr', 'ZP', 'Filter', 'MagSys']`). -/
def raw_columns : List String := ["Date", "Flux", "Fluxerr", "ZP", "Filter", "MagSys"]

/-- Model of `Table.rename_column`, acting on the list of column names. -/
def rename_column (cols : List String) (old new : String) : List String :=
  cols.map (fun c => if c = old then new else c)

/-- The renames applied by `get_data_for_id` when `format_table` is true. -/
def formatted_columns : List String :=
  rename_column (rename_column (rename_column (rename_column (rename_column
    (rename_column raw_columns "Date" "time") "Flux" "flux") "Fluxerr" "fluxerr")
    "Filter" "band") "ZP" "zp") "MagSys" "zpsys"

/-- The metadata keys set by `get_data_for_id` (in insertion order). -/
def meta_keys : List String := ["obj_id", "ra", "dec", "z", "z_err", "comments"]

/-- Model of `get_data_for_id` of `sndata/jla/betoule14/_data_parsing.py`: raise
`InvalidObjId` for an unknown object id, otherwise the light-curve table with
package-standard metadata, with SNCosmo column names when `format_table`. -/
def get_data_for_id (availableIds : List String) (obj_id : String)
    (format_table : Bool) : Except PyError Table :=
  if obj_id ∉ availableIds then .error .invalidObjId
  else
    .ok { colNames := if format_table then formatted_columns else raw_columns
          metaKeys := meta_keys }

/-- Model of `load_table` of `sndata/jla/betoule14/_data_parsing.py`: raise
`ValueError` for a table id that is not among the available tables, otherwise
the parsed table (`table f2` is a FITS file, the rest are CDS tables). -/
def load_table (availableTables : List String) (table_id : String) :
    Except PyError Table :=
  if table_id ∉ availableTables then
    .error (.valueError ("Table " ++ table_id ++ " is not available."))
  else if table_id = "f2" then
    .ok { colNames := [], metaKeys := ["description"] }
  else
    .ok { colNames := [], metaKeys := ["description"] }

end betoule14

/-! ## `SNData/csp/dr3/_data_parsing.py` (the older module) -/

namespace dr3

/-- The message of the `RuntimeError` raised by `_check_for_data`. -/
def missing_data_msg : String :=
  "Data has not been downloaded for this survey. Please run the download_data function."

/-- Model of `_check_for_data`: raise a `RuntimeError` when the module data directory
does not exist. -/
def check_for_data (dataDirExists : Bool) : Except PyError Unit :=
  if dataDirExists then .ok ()
  else .error (.runtimeError missing_data_msg)

/-- Python truthiness of the expression `table_path.exists` in `load_table`:
the call parentheses are missing in the source, so this is a bound-method
object, and `bool` of a bound method is always `True`; hence
`if not table_path.exists:` is never taken. -/
def exists_attribute_is_truthy : Bool := true

/-- Model of `load_table` of the older `SNData/csp/dr3` module.  After the data-dir
guard, `if not table_path.exists: raise ValueError(...)` is dead code (see
`exists_attribute_is_truthy`); `ascii.read` then fails with a
`FileNotFoundError` when the table file is absent. -/
def load_table (dataDirExists : Bool) (tableFileExists : String → Bool)
    (table_num : String) : Except PyError Table :=
  match check_for_data dataDirExists with
  | .error e => .error e
  | .ok _ =>
    if exists_attribute_is_truthy = false then
      .error (.valueError ("Table " ++ table_num ++ " is not available."))
    else if tableFileExists ("table" ++ table_num ++ ".dat") then
      .ok { colNames := [], metaKeys := [] }
    else
      .error .fileNotFoundError

/-- Id extraction of `get_obj_ids`:
`_path.basename(f).split('_')[0].lstrip('SN')`. -/
def extract_obj_id (basename : PyStr) : PyStr :=
  ((basename.splitOn '_').headD []).dropWhile (fun c => c == 'S' || c == 'N')

/-- Model of `get_obj_ids` of the older `SNData/csp/dr3` module: the ids of the `*.txt`
files of the photometry directory, in the order `glob` yields them — there is
no `sorted` and no de-duplication in the source. -/
def get_obj_ids (dataDirExists : Bool) (files : List PyStr) :
    Except PyError (List PyStr) :=
  match check_for_data dataDirExists with
  | .error e => .error e
  | .ok _ => .ok (files.map extract_obj_id)

end dr3

/-! ## `SNData/csp/dr1/_data_download.py` (the older module) -/

namespace old_dr1

/-- Model of `data_is_available` composed into `_raise_for_data`: raise a
`RuntimeError` when the module data directory does not exist. -/
def raise_for_data (dataDirExists : Bool) : Except PyError Unit :=
  if dataDirExists then .ok ()
  else .error (.runtimeError dr3.missing_data_msg)

end old_dr1

/-! ## `lru_copy_cache` from `sndata/_utils.py`

The wrapper produced with `copy=True` memoizes the underlying function with
`functools.lru_cache` and returns a `deepcopy` of the memoized object on every
call.  To make mutation observable the model carries an explicit heap of
Python objects: an address is an allocation index, the cache stores the
address of the memoized object, and every call hands the caller a freshly
allocated copy.  The wrapped function is pure (an eviction by `maxsize` would
only make it recompute the same value), so it is modelled as `f : A → V`. -/

/-- A heap of mutable Python objects. -/
structure Heap (V : Type) where
  mem : Nat → V
  next : Nat

/-- Read the object at an address. -/
def Heap.read {V : Type} (h : Heap V) (a : Nat) : V := h.mem a

/-- Mutate the object at an address in place. -/
def Heap.write {V : Type} (h : Heap V) (a : Nat) (v : V) : Heap V :=
  ⟨fun x => if x = a then v else h.mem x, h.next⟩

/-- Allocate a fresh object (this is what `deepcopy` does to the top-level
object; the model keeps one cell per value). -/
def Heap.alloc {V : Type} (h : Heap V) (v : V) : Heap V × Nat :=
  (⟨fun x => if x = h.next then v else h.mem x, h.next + 1⟩, h.next)

/-- The state of one function wrapped by `lru_copy_cache(copy=True)`: the
heap, and the `lru_cache` table mapping argument to the address of the
memoized result object. -/
structure CacheState (A V : Type) where
  heap : Heap V
  cache : List (A × Nat)

/-- One call of the wrapper: on a cache hit, `deepcopy` the memoized object
and return the fresh copy; on a miss, compute `f a`, store it in the cache,
and return a fresh `deepcopy` of the stored object. -/
def cached_call {A V : Type} [DecidableEq A] (f : A → V) (s : CacheState A V)
    (a : A) : CacheState A V × Nat :=
  match s.cache.find? (fun p => p.1 == a) with
  | some p =>
    let (h, r) := s.heap.alloc (s.heap.read p.2)
    (⟨h, s.cache⟩, r)
  | none =>
    let v := f a
    let (h1, caddr) := s.heap.alloc v
    let (h2, r) := h1.alloc (h1.read caddr)
    (⟨h2, (a, caddr) :: s.cache⟩, r)

/-- What a caller can do with the wrapper: call it, or mutate (a part of) a
value it previously received; `mutate i v` overwrites the `i`-th value
returned so far. -/
inductive CacheOp (A V : Type)
  | call (a : A)
  | mutate (i : Nat) (v : V)

/-- One step of a caller interaction.  The triple carries the cache state, the
addresses handed out so far, and the observations: for every call, the
argument and the value the caller sees at return time. -/
def cacheStep {A V : Type} [DecidableEq A] (f : A → V)
    (acc : CacheState A V × List Nat × List (A × V)) (op : CacheOp A V) :
    CacheState A V × List Nat × List (A × V) :=
  match op with
  | .call a =>
    let (s', r) := cached_call f acc.1 a
    (s', acc.2.1 ++ [r], acc.2.2 ++ [(a, s'.heap.read r)])
  | .mutate i v =>
    match acc.2.1.get? i with
    | some addr => (⟨acc.1.heap.write addr v, acc.1.cache⟩, acc.2.1, acc.2.2)
    | none => acc

/-- The empty cache over an empty heap. -/
def initCacheState (A V : Type) [Inhabited V] : CacheState A V :=
  ⟨⟨fun _ => default, 0⟩, []⟩

/-- Run a caller interaction from the initial state and collect, for every
call, the argument and the value returned for it. -/
def runCache {A V : Type} [DecidableEq A] [Inhabited V] (f : A → V)
    (ops : List (CacheOp A V)) : List (A × V) :=
  (ops.foldl (cacheStep f) (initCacheState A V, [], [])).2.2

/-- Invariant of the cache-interaction model: every cached entry is a valid
address holding the value of `f` at its key, and no cached address was ever
handed to the caller. -/
def CacheInv {A V : Type} (f : A → V) (s : CacheState A V) (rets : List Nat) : Prop :=
  (∀ p ∈ s.cache, p.2 < s.heap.next ∧ s.heap.read p.2 = f p.1) ∧
  (∀ r ∈ rets, r < s.heap.next) ∧
  (∀ p ∈ s.cache, p.2 ∉ rets)

/-- A sample raw photometry row of the ESSENCE release. -/
def narayan16.sample_row : narayan16.RawRow :=
  { MJD := 53000, Passband := "R", Flux := 1, Fluxerr_lo := 2, Fluxerr_hi := 3,
    JD := 2453000.5 }

/-! ## Theorems -/

/-- C2: `convert_to_jd` adds both offsets below 53000, only the MJD offset on
`[53000, 2400000.5)`, is the identity from 2400000.5 on, and is therefore
idempotent on nonnegative dates. -/
theorem claim_C2_convert_to_jd (d : ℚ) (hd : 0 ≤ d) :
    (d < 53000 → convert_to_jd d = d + 53000 + 2400000.5) ∧
    (53000 ≤ d → d < 2400000.5 → convert_to_jd d = d + 2400000.5) ∧
    (2400000.5 ≤ d → convert_to_jd d = d) ∧
    convert_to_jd (convert_to_jd d) = convert_to_jd d := by
  have h1 : ∀ x : ℚ, x < 53000 → convert_to_jd x = x + 53000 + 2400000.5 := by
    intro x hx
    simp only [convert_to_jd]
    rw [if_pos hx, if_pos (by linarith)]
  have h2 : ∀ x : ℚ, 53000 ≤ x → x < 2400000.5 → convert_to_jd x = x + 2400000.5 := by
    intro x hx1 hx2
    simp only [convert_to_jd]
    rw [if_neg (not_lt.mpr hx1), if_pos hx2]
  have h3 : ∀ x : ℚ, 2400000.5 ≤ x → convert_to_jd x = x := by
    intro x hx
    have hx53 : (53000 : ℚ) ≤ x := le_trans (by norm_num) hx
    simp only [convert_to_jd]
    rw [if_neg (not_lt.mpr hx53), if_neg (not_lt.mpr hx)]
  refine ⟨h1 d, h2 d, h3 d, ?_⟩
  rcases lt_or_le d 53000 with h | h
  · rw [h1 d h]
    exact h3 _ (by linarith)
  · rcases lt_or_le d 2400000.5 with h' | h'
    · rw [h2 d h h']
      exact h3 _ (by linarith)
    · rw [h3 d h']
      exact h3 d h'

/-- Witness for C2 at the concrete Snoopy-format date 500. -/
theorem claim_C2_witness :
    convert_to_jd 500 = 500 + 53000 + 2400000.5 ∧
    convert_to_jd (convert_to_jd 500) = convert_to_jd 500 := by
  have h := claim_C2_convert_to_jd 500 (by norm_num)
  exact ⟨h.1 (by norm_num), h.2.2.2⟩

/-- C7 fails on the code: for `dec_sign = '-'`, `decd = 10`, `decm = 30`,
`decs = 0` the source computes `-10 + 30/60 = -9.5`, not
`-(10 + 30/60) = -10.5` as the claim states. -/
theorem claim_C7_counterexample :
    ¬ (hourangle_to_degrees 0 0 0 "-" 10 30 0).2
        = (-1 : ℚ) * (10 + 30 / 60 + 0 / 3600) := by
  simp only [hourangle_to_degrees]
  norm_num

/-- C7 amended: the sign is applied to the degrees term only, so the
declination is `sign * decd + decm/60 + decs/3600`; consequently flipping the
sign character leaves the arcminute and arcsecond contributions unchanged
(the two declinations sum to `2 * (decm/60 + decs/3600)` instead of 0). -/
theorem claim_C7_amended (rah ram ras decd decm decs : ℚ) (dec_sign : String) :
    (hourangle_to_degrees rah ram ras dec_sign decd decm decs).2
      = (if dec_sign = "-" then (-1 : ℚ) else 1) * decd + decm / 60 + decs / 3600 ∧
    (hourangle_to_degrees rah ram ras "-" decd decm decs).2
      + (hourangle_to_degrees rah ram ras "+" decd decm decs).2
      = 2 * (decm / 60 + decs / 3600) := by
  constructor
  · simp only [hourangle_to_degrees]
    split_ifs <;> ring
  · simp only [hourangle_to_degrees]
    rw [if_neg (show ¬("+" : String) = "-" by decide)]
    simp only [if_true]
    ring

/-- C6: `require_data_path` raises `NoDownloadedData` exactly when one of the
given paths does not exist; the older module's guards `_check_for_data` and
`_raise_for_data` raise `RuntimeError` exactly when the data directory does
not exist; and an operation guarded by `require_data_path`
(`DR1._get_available_ids`) reports `NoDownloadedData` exactly when its data
directory is missing, whatever the directory contents. -/
theorem claim_C6_require_data_path :
    (∀ (pathExists : String → Bool) (dirs : List String),
      require_data_path pathExists dirs = .error .noDownloadedData
        ↔ ∃ d ∈ dirs, pathExists d = false) ∧
    (∀ b, dr3.check_for_data b = .error (.runtimeError dr3.missing_data_msg) ↔ b = false) ∧
    (∀ b, old_dr1.raise_for_data b = .error (.runtimeError dr3.missing_data_msg) ↔ b = false) ∧
    (∀ (pathExists : String → Bool) (files : List PyStr),
      dr1.get_available_ids pathExists files = .error .noDownloadedData
        ↔ pathExists dr1.spectra_dir = false) := by
  have hmain : ∀ (pe : String → Bool) (dirs : List String),
      require_data_path pe dirs = .error .noDownloadedData
        ↔ ∃ d ∈ dirs, pe d = false := by
    intro pe dirs
    induction dirs with
    | nil => simp [require_data_path]
    | cons d ds ih =>
      by_cases h : pe d = true
      · simp [require_data_path, h, ih]
      · simp only [Bool.not_eq_true] at h
        simp [require_data_path, h]
  refine ⟨hmain, ?_, ?_, ?_⟩
  · intro b
    cases b <;> simp [dr3.check_for_data, dr3.missing_data_msg]
  · intro b
    cases b <;> simp [old_dr1.raise_for_data, dr3.missing_data_msg]
  · intro pe files
    by_cases h : pe dr1.spectra_dir = true
    · simp [dr1.get_available_ids, require_data_path, h]
    · simp only [Bool.not_eq_true] at h
      simp [dr1.get_available_ids, require_data_path, h]

/-- Witness for C6 at a concrete missing directory. -/
theorem claim_C6_witness :
    require_data_path (fun _ => false) ["tables"] = .error .noDownloadedData :=
  (claim_C6_require_data_path.1 (fun _ => false) ["tables"]).mpr
    ⟨"tables", by decide, rfl⟩

/-- Witness for C7 (amended) at concrete declination components. -/
theorem claim_C7_witness :
    (hourangle_to_degrees 0 0 0 "-" 10 30 0).2
      = (if ("-" : String) = "-" then (-1 : ℚ) else 1) * 10 + 30 / 60 + 0 / 3600 :=
  (claim_C7_amended 0 0 0 10 30 0 "-").1

/-- C8: an unreachable URL makes `check_url` return `False` with a warning
while a reachable one gives `True` with no warning; with an unreachable URL
`download_file` and `download_tar` leave the filesystem unchanged; and when
the target path (resp. output directory) already exists and `force` is false,
both return immediately, leaving the filesystem unchanged and issuing no
warning. -/
theorem claim_C8_download (url : String) (p d : List String)
    (contents : List (List String)) (force r : Bool) (fs : FileSystem)
    (hp : fs.hasPath p = true) (hd : fs.hasPath d = true) :
    check_url false url = (false, ["Could not connect to " ++ url]) ∧
    check_url true url = (true, []) ∧
    (download_file false url p force fs).1 = fs ∧
    (download_tar false url d contents force fs).1 = fs ∧
    download_file r url p false fs = (fs, []) ∧
    download_tar r url d contents false fs = (fs, []) := by
  refine ⟨rfl, rfl, ?_, ?_, ?_, ?_⟩
  · by_cases hf : (force || ! fs.hasPath p) = true
    · simp [download_file, hf, check_url]
    · simp only [Bool.not_eq_true] at hf
      simp [download_file, hf]
  · by_cases hf : (force || ! fs.hasPath d) = true
    · simp [download_tar, hf, check_url]
    · simp only [Bool.not_eq_true] at hf
      simp [download_tar, hf]
  · simp [download_file, hp]
  · simp [download_tar, hd]

/-- Witness for C8 on a concrete two-entry filesystem. -/
theorem claim_C8_witness :
    check_url false "u" = (false, ["Could not connect to " ++ "u"]) ∧
    check_url true "u" = (true, []) ∧
    (download_file false "u" ["a"] true ⟨[["a"], ["b"]]⟩).1 = ⟨[["a"], ["b"]]⟩ ∧
    (download_tar false "u" ["b"] [] true ⟨[["a"], ["b"]]⟩).1 = ⟨[["a"], ["b"]]⟩ ∧
    download_file true "u" ["a"] false ⟨[["a"], ["b"]]⟩ = (⟨[["a"], ["b"]]⟩, []) ∧
    download_tar true "u" ["b"] [] false ⟨[["a"], ["b"]]⟩ = (⟨[["a"], ["b"]]⟩, []) :=
  claim_C8_download "u" ["a"] ["b"] [] true true ⟨[["a"], ["b"]]⟩ (by decide) (by decide)

/-- C1 fails on the code: the CSP DR1 release is spectroscopic, and the table
its `get_data_for_id` returns with `format_table=True` has the columns
`time, wavelength, flux, epoch, wavelength_range, telescope, instrument` — it
contains no `band` column (nor `fluxerr`, `zp`, `zpsys`), although its
metadata does carry the five standard keys. -/
theorem claim_C1_counterexample :
    dr1.get_data_for_id [{ max_date := 0, redshift := 0 }] "2004ef" true
      = .ok { colNames := ["time", "wavelength", "flux", "epoch",
                           "wavelength_range", "telescope", "instrument"],
              metaKeys := ["obj_id", "ra", "dec", "z", "z_err"] } ∧
    "band" ∉ (["time", "wavelength", "flux", "epoch",
               "wavelength_range", "telescope", "instrument"] : List String) := by
  exact ⟨rfl, by decide⟩

/-- C1 amended: the photometric accessors (DES SN3YR, JLA Betoule14) return,
for a known object id with `format_table=True`, a table with the columns
`time, band, flux, fluxerr, zp, zpsys` and metadata containing
`obj_id, ra, dec, z, z_err`; the ESSENCE Narayan16 formatter also produces
exactly those columns and guarantees an `obj_id` metadata key (the rest of its
metadata is copied from the file header); the spectroscopic CSP DR1 release
provides the five metadata keys but spectroscopic columns, without `band` or
`zp`. -/
theorem claim_C1_amended (ids : List String) (oid : String) (hmem : oid ∈ ids)
    (headerKeys : List String) :
    (des.get_data_for_id ids oid true
        = .ok { colNames := sncosmo_columns, metaKeys := des.meta_keys } ∧
      ∀ k ∈ standard_meta, k ∈ des.meta_keys) ∧
    (betoule14.get_data_for_id ids oid true
        = .ok { colNames := betoule14.formatted_columns,
                metaKeys := betoule14.meta_keys } ∧
      (∀ c ∈ sncosmo_columns, c ∈ betoule14.formatted_columns) ∧
      ∀ k ∈ standard_meta, k ∈ betoule14.meta_keys) ∧
    ((∀ c ∈ sncosmo_columns, c ∈ narayan16.formatted_columns) ∧
      "obj_id" ∈ narayan16.meta_keys headerKeys) ∧
    (∀ (files : List dr1.SpectrumFile) (t : Table),
      dr1.get_data_for_id files oid true = .ok t →
        (∀ k ∈ standard_meta, k ∈ t.metaKeys) ∧
        "band" ∉ t.colNames ∧ "zp" ∉ t.colNames) := by
  refine ⟨⟨?_, by decide⟩, ⟨?_, by decide, by decide⟩, ⟨by decide, ?_⟩, ?_⟩
  · simp [des.get_data_for_id, des.format_sncosmo_table, hmem, sncosmo_columns]
  · simp [betoule14.get_data_for_id, hmem]
  · simp [narayan16.meta_keys]
  · intro files t hok
    cases hlast : files.getLast? with
    | none =>
      simp [dr1.get_data_for_id, dr1.generator_is_truthy, hlast] at hok
    | some f =>
      have heval : dr1.get_data_for_id files oid true
          = .ok { colNames := ["time", "wavelength", "flux", "epoch",
                               "wavelength_range", "telescope", "instrument"],
                  metaKeys := ["obj_id", "ra", "dec", "z", "z_err"] } := by
        simp only [dr1.get_data_for_id, hlast]
        rfl
      rw [heval] at hok
      cases hok
      exact ⟨by decide, by decide, by decide⟩

/-- Witness for C1 (amended) at a concrete one-element id list. -/
theorem claim_C1_witness :
    des.get_data_for_id ["x"] "x" true
      = .ok { colNames := sncosmo_columns, metaKeys := des.meta_keys } :=
  (claim_C1_amended ["x"] "x" (by decide) []).1.1

/-- C3 fails on the code for CSP DR1: `Path.rglob` returns a generator, so the
guard `if not files:` is dead and an unknown object id ends in an
`UnboundLocalError` on `redshift` — no error signalling an invalid identifier
is ever raised by `DR1._get_data_for_id` (the `ValueError` branch is
unreachable for every input). -/
theorem claim_C3_dr1_unknown_id :
    dr1.get_data_for_id [] "2099zz" true = .error (.unboundLocal "redshift") ∧
    ∀ (matching : List dr1.SpectrumFile) (obj_id : String) (ft : Bool) (msg : String),
      dr1.get_data_for_id matching obj_id ft ≠ .error (.valueError msg) := by
  refine ⟨rfl, ?_⟩
  intro matching obj_id ft msg
  cases hlast : matching.getLast? with
  | none => simp [dr1.get_data_for_id, dr1.generator_is_truthy, hlast]
  | some f => simp [dr1.get_data_for_id, dr1.generator_is_truthy, hlast]

/-- Witness for C3 at a concrete unknown id: even there, no `ValueError` is
raised. -/
theorem claim_C3_witness :
    dr1.get_data_for_id [] "2099zz" true = .error (.unboundLocal "redshift") ∧
    dr1.get_data_for_id [] "2099zz" true
      ≠ .error (.valueError ("No data found for obj_id " ++ "2099zz")) :=
  ⟨claim_C3_dr1_unknown_id.1,
   claim_C3_dr1_unknown_id.2 [] "2099zz" true ("No data found for obj_id " ++ "2099zz")⟩

/-- C4 fails on the code for the older `SNData/csp/dr3` module: in its
`load_table` the check reads `if not table_path.exists:` without calling the
method, so the `ValueError` branch is unreachable for every input and a
missing table file surfaces as a `FileNotFoundError` from `ascii.read`; the
newer DES and JLA `load_table` implementations do raise the documented
`ValueError` exactly for unknown table ids and return the parsed table for
available ones. -/
theorem claim_C4_load_table :
    dr3.load_table true (fun _ => false) "99" = .error .fileNotFoundError ∧
    (∀ (dataDirExists : Bool) (tableFileExists : String → Bool) (table_num msg : String),
      dr3.load_table dataDirExists tableFileExists table_num
        ≠ .error (.valueError msg)) ∧
    (∀ table_id : String,
      (des.load_table table_id
          = .error (.valueError ("Table " ++ table_id ++ " is not available."))
        ↔ table_id ∉ des.get_available_tables) ∧
      (table_id ∈ des.get_available_tables →
        des.load_table table_id
          = .ok { colNames := des.fitres_columns, metaKeys := [] })) ∧
    (∀ (tables : List String) (table_id : String),
      betoule14.load_table tables table_id
          = .error (.valueError ("Table " ++ table_id ++ " is not available."))
        ↔ table_id ∉ tables) := by
  refine ⟨rfl, ?_, ?_, ?_⟩
  · intro dataDirExists tableFileExists table_num msg
    cases dataDirExists with
    | false => simp [dr3.load_table, dr3.check_for_data]
    | true =>
      simp only [dr3.load_table, dr3.check_for_data, dr3.exists_attribute_is_truthy]
      split_ifs <;> simp_all
  · intro table_id
    by_cases h : table_id ∈ des.get_available_tables
    · constructor
      · simp [des.load_table, h]
      · intro _
        simp [des.load_table, h]
    · constructor
      · simp [des.load_table, h]
      · intro hmem
        exact absurd hmem h
  · intro tables table_id
    by_cases h : table_id ∈ tables
    · by_cases h2 : table_id = "f2" <;> simp [betoule14.load_table, h, h2]
    · simp [betoule14.load_table, h]

/-- Witness for C4 (the DES branch of the conjunction) at an available table
id. -/
theorem claim_C4_witness :
    des.load_table "SALT2mu_DES+LOWZ_C11.FITRES"
      = .ok { colNames := des.fitres_columns, metaKeys := [] } :=
  (claim_C4_load_table.2.2.1 "SALT2mu_DES+LOWZ_C11.FITRES").2 (by decide)

/-- C5 fails on the code for the older module's `get_obj_ids`: the ids come
out in the filesystem enumeration order (no `sorted`) and are not
de-duplicated — a glob order `SN2005kc_*, SN2004ef_*` yields an unsorted
list, and two files of the same object yield a duplicate id. -/
theorem claim_C5_counterexample :
    dr3.get_obj_ids true ["SN2005kc_snpy.txt".toList, "SN2004ef_snpy.txt".toList]
      = .ok ["2005kc".toList, "2004ef".toList] ∧
    ¬ List.Sorted (· ≤ ·) ["2005kc".toList, "2004ef".toList] ∧
    dr3.get_obj_ids true ["SN2004ef_snpy.txt".toList, "SN2004ef_max.txt".toList]
      = .ok ["2004ef".toList, "2004ef".toList] ∧
    ¬ List.Nodup ["2004ef".toList, "2004ef".toList] := by
  exact ⟨rfl, by decide, rfl, by decide⟩

/-- C5 amended: the `sndata` id accessors do sort — CSP DR1's
`_get_available_ids` returns a sorted duplicate-free list
(`sorted(set(...))`), and ESSENCE Narayan16's and DES SN3YR's return sorted
lists — while the older module's `get_obj_ids` returns the ids in glob order,
unsorted and with possible duplicates. -/
theorem claim_C5_amended (files : List PyStr) :
    List.Sorted (· ≤ ·) (dr1.available_ids files) ∧
    (dr1.available_ids files).Nodup ∧
    List.Sorted (· ≤ ·) (narayan16.available_ids files) ∧
    List.Sorted (· ≤ ·) (des.available_ids files) := by
  refine ⟨?_, ?_, ?_, ?_⟩
  · exact List.sorted_insertionSort _ _
  · exact ((List.perm_insertionSort _ _).symm).nodup (List.nodup_dedup _)
  · exact List.sorted_insertionSort _ _
  · exact List.sorted_insertionSort _ _

/-- Witness for C5 (amended) on a concrete file list. -/
theorem claim_C5_witness :
    List.Sorted (· ≤ ·) (dr1.available_ids ["SN05kc_a.dat".toList]) ∧
    (dr1.available_ids ["SN05kc_a.dat".toList]).Nodup :=
  ⟨(claim_C5_amended ["SN05kc_a.dat".toList]).1,
   (claim_C5_amended ["SN05kc_a.dat".toList]).2.1⟩

/-- No string starting with `csp_dr3_` is an ESSENCE band name. -/
lemma csp_prefix_not_band_name (s : String) :
    ("csp_dr3_" ++ s) ∉ narayan16.band_names := by
  intro hmem
  have hhead : ∀ t : String, ("csp_dr3_" ++ s) = t → t.data.headD ' ' = 'c' := by
    intro t ht
    have hd : t.data = "csp_dr3_".data ++ s.data := by
      rw [← ht, String.data_append]
    rw [hd]
    rfl
  simp only [narayan16.band_names, List.mem_cons, List.not_mem_nil, or_false] at hmem
  rcases hmem with h | h
  · exact absurd (hhead _ h) (by decide)
  · exact absurd (hhead _ h) (by decide)

/-- C9: every row produced by the ESSENCE Narayan16 formatter carries a band
equal to `csp_dr3_` plus the raw passband and a zero point of 25; hence no
produced band is among the class's declared `band_names` and no produced zero
point equals the declared `zero_point` entries of 27.5. -/
theorem claim_C9_essence_formatter (rows : List narayan16.RawRow)
    (r : narayan16.FmtRow) (hr : r ∈ narayan16.format_table rows) :
    (∃ raw ∈ rows, r.band = "csp_dr3_" ++ raw.Passband ∧
      r = narayan16.format_row raw) ∧
    r.zp = 25 ∧
    r.band ∉ narayan16.band_names ∧
    ∀ z ∈ narayan16.zero_point, r.zp ≠ z := by
  obtain ⟨raw, hraw, hfmt⟩ := List.mem_map.mp hr
  subst hfmt
  refine ⟨⟨raw, hraw, rfl, rfl⟩, rfl, ?_, ?_⟩
  · exact csp_prefix_not_band_name raw.Passband
  · intro z hz
    simp only [narayan16.zero_point, narayan16.band_names, List.map_cons,
      List.map_nil, List.mem_cons, List.not_mem_nil, or_false] at hz
    rcases hz with h | h <;> rw [h] <;> norm_num [narayan16.format_row]

/-- Witness for C9 at a concrete raw row with passband `R`. -/
theorem claim_C9_witness :
    (∃ raw ∈ [narayan16.sample_row],
      (narayan16.format_row narayan16.sample_row).band = "csp_dr3_" ++ raw.Passband ∧
      narayan16.format_row narayan16.sample_row = narayan16.format_row raw) ∧
    (narayan16.format_row narayan16.sample_row).zp = 25 ∧
    (narayan16.format_row narayan16.sample_row).band ∉ narayan16.band_names ∧
    ∀ z ∈ narayan16.zero_point, (narayan16.format_row narayan16.sample_row).zp ≠ z :=
  claim_C9_essence_formatter [narayan16.sample_row] _
    (by simp [narayan16.format_table])

/-- One step of a caller interaction preserves the cache invariant, and every
observation it may add records the pure value of the wrapped function. -/
lemma cacheStep_preserves {A V : Type} [DecidableEq A] (f : A → V)
    (s : CacheState A V) (rets : List Nat) (out : List (A × V)) (op : CacheOp A V)
    (hinv : CacheInv f s rets) (hout : ∀ p ∈ out, p.2 = f p.1) :
    CacheInv f (cacheStep f (s, rets, out) op).1 (cacheStep f (s, rets, out) op).2.1 ∧
    ∀ p ∈ (cacheStep f (s, rets, out) op).2.2, p.2 = f p.1 := by
  obtain ⟨hc, hrets, hdisj⟩ := hinv
  cases op with
  | call a =>
    cases hfind : s.cache.find? (fun p => p.1 == a) with
    | some q =>
      have hqmem : q ∈ s.cache := List.mem_of_find?_eq_some hfind
      have hqb := @List.find?_some (A × Nat) (fun p => p.1 == a) q s.cache hfind
      have hqa : q.1 = a := eq_of_beq (by simpa using hqb)
      have hq := hc q hqmem
      have hstep : cacheStep f (s, rets, out) (.call a)
          = (⟨⟨fun x => if x = s.heap.next then s.heap.read q.2 else s.heap.mem x,
                s.heap.next + 1⟩, s.cache⟩,
             rets ++ [s.heap.next],
             out ++ [(a, s.heap.read q.2)]) := by
        simp only [cacheStep, cached_call, hfind, Heap.alloc, Heap.read]
        simp
      rw [hstep]
      dsimp only [CacheInv, Heap.read]
      refine ⟨⟨?_, ?_, ?_⟩, ?_⟩
      · intro p hp
        have hplt := (hc p hp).1
        refine ⟨Nat.lt_succ_of_lt hplt, ?_⟩
        rw [if_neg (Nat.ne_of_lt hplt)]
        exact (hc p hp).2
      · intro r hr
        rcases List.mem_append.mp hr with h | h
        · exact Nat.lt_succ_of_lt (hrets r h)
        · rw [List.mem_singleton.mp h]
          exact Nat.lt_succ_self _
      · intro p hp hmem
        rcases List.mem_append.mp hmem with h | h
        · exact hdisj p hp h
        · exact Nat.ne_of_lt (hc p hp).1 (List.mem_singleton.mp h)
      · intro p hp
        rcases List.mem_append.mp hp with h | h
        · exact hout p h
        · rw [List.mem_singleton.mp h]
          show s.heap.mem q.2 = f a
          rw [← hqa]
          exact hq.2
    | none =>
      have hstep : cacheStep f (s, rets, out) (.call a)
          = (⟨⟨fun x => if x = s.heap.next + 1 then f a
                        else if x = s.heap.next then f a else s.heap.mem x,
                s.heap.next + 1 + 1⟩, (a, s.heap.next) :: s.cache⟩,
             rets ++ [s.heap.next + 1],
             out ++ [(a, f a)]) := by
        simp only [cacheStep, cached_call, hfind, Heap.alloc, Heap.read]
        simp
      rw [hstep]
      dsimp only [CacheInv, Heap.read]
      refine ⟨⟨?_, ?_, ?_⟩, ?_⟩
      · intro p hp
        rcases List.mem_cons.mp hp with h | h
        · subst h
          refine ⟨by omega, ?_⟩
          rw [if_neg (by omega : ¬ s.heap.next = s.heap.next + 1), if_pos rfl]
        · have hplt := (hc p h).1
          refine ⟨by omega, ?_⟩
          rw [if_neg (by omega : ¬ p.2 = s.heap.next + 1),
            if_neg (Nat.ne_of_lt hplt)]
          exact (hc p h).2
      · intro r hr
        rcases List.mem_append.mp hr with h | h
        · have := hrets r h
          omega
        · rw [List.mem_singleton.mp h]
          omega
      · intro p hp hmem
        rcases List.mem_cons.mp hp with h | h
        · subst h
          rcases List.mem_append.mp hmem with h' | h'
          · exact absurd (hrets _ h') (by omega)
          · exact absurd (List.mem_singleton.mp h') (by omega)
        · rcases List.mem_append.mp hmem with h' | h'
          · exact hdisj p h h'
          · have hplt := (hc p h).1
            exact absurd (List.mem_singleton.mp h') (by omega)
      · intro p hp
        rcases List.mem_append.mp hp with h | h
        · exact hout p h
        · rw [List.mem_singleton.mp h]
  | mutate i v =>
    cases hget : rets.get? i with
    | none =>
      have hstep : cacheStep f (s, rets, out) (.mutate i v) = (s, rets, out) := by
        simp only [cacheStep, hget]
      rw [hstep]
      exact ⟨⟨hc, hrets, hdisj⟩, hout⟩
    | some addr =>
      have haddr : addr ∈ rets := List.get?_mem hget
      have hstep : cacheStep f (s, rets, out) (.mutate i v)
          = (⟨⟨fun x => if x = addr then v else s.heap.mem x, s.heap.next⟩,
              s.cache⟩, rets, out) := by
        simp only [cacheStep, hget, Heap.write]
      rw [hstep]
      dsimp only [CacheInv, Heap.read]
      refine ⟨⟨?_, hrets, hdisj⟩, hout⟩
      intro p hp
      refine ⟨(hc p hp).1, ?_⟩
      have hpa : ¬ p.2 = addr := by
        intro h
        exact hdisj p hp (by rw [h]; exact haddr)
      rw [if_neg hpa]
      exact (hc p hp).2

/-- Folding a caller interaction keeps every recorded observation equal to the
pure value of the wrapped function. -/
lemma runCache_fold {A V : Type} [DecidableEq A] (f : A → V)
    (ops : List (CacheOp A V)) :
    ∀ (s : CacheState A V) (rets : List Nat) (out : List (A × V)),
      CacheInv f s rets → (∀ p ∈ out, p.2 = f p.1) →
      ∀ p ∈ (ops.foldl (cacheStep f) (s, rets, out)).2.2, p.2 = f p.1 := by
  induction ops with
  | nil =>
    intro s rets out _ hout
    simpa using hout
  | cons op ops ih =>
    intro s rets out hinv hout
    have h := cacheStep_preserves f s rets out op hinv hout
    exact ih _ _ _ h.1 h.2

/-- C10: for a function wrapped by `lru_copy_cache` with `copy=True`, every
call — first or repeated, before or after the caller mutates values it was
previously handed — returns a value equal to the wrapped function's result
for that argument: the deep copies isolate the cache from the callers. -/
theorem claim_C10_lru_copy_cache {A V : Type} [DecidableEq A] [Inhabited V]
    (f : A → V) (ops : List (CacheOp A V)) (p : A × V) (hp : p ∈ runCache f ops) :
    p.2 = f p.1 := by
  have hinv : CacheInv f (initCacheState A V) [] := by
    refine ⟨?_, ?_, ?_⟩ <;> simp [initCacheState]
  exact runCache_fold f ops _ _ _ hinv (by simp) p hp

/-- Witness for C10: call, mutate the returned copy, call again — the second
call still observes the original value. -/
theorem claim_C10_witness :
    ((0, 1) : Nat × Nat) ∈
      runCache (fun n : Nat => n + 1) [.call 0, .mutate 0 99, .call 0] ∧
    ((0, 1) : Nat × Nat).2 = (fun n : Nat => n + 1) ((0, 1) : Nat × Nat).1 :=
  ⟨by decide,
   claim_C10_lru_copy_cache (fun n : Nat => n + 1) [.call 0, .mutate 0 99, .call 0]
     (0, 1) (by decide)⟩

end SNData
